import Mathlib

/-!
Shallow embedding of the music-bag-telegram-bot core:
the temporary-file registry (`FileService`), the HTTP delivery
endpoint (`FileServer`), the async job state machine
(`AsyncJobHandler`) and the synchronous download pipeline
(`DownloadHandler`), together with theorems checking the
specification's claims against these definitions.
-/

namespace MusicBag

/-! ## JavaScript number and string primitives

`FileServer.handleRangeRequest` parses the Range header with
`parseInt`, whose result may be `NaN`; every comparison against
`NaN` is `false` in JavaScript.  `JsNum` models the value of such
a parse: either `NaN` or an integer. -/

inductive JsNum : Type where
  | nan : JsNum
  | int (i : Int) : JsNum
deriving DecidableEq, Repr

/-- JavaScript `>=`: false whenever either side is NaN. -/
def jsGe : JsNum → JsNum → Bool
  | JsNum.int a, JsNum.int b => a ≥ b
  | _, _ => false

/-- JavaScript `>`: false whenever either side is NaN. -/
def jsGt : JsNum → JsNum → Bool
  | JsNum.int a, JsNum.int b => a > b
  | _, _ => false

/-- JavaScript number-to-string for the values appearing in
`Content-Range` interpolation (`NaN` prints as "NaN"). -/
def jsToString : JsNum → String
  | JsNum.nan => "NaN"
  | JsNum.int i => toString i

/-- JavaScript `String.prototype.split` on a single separator
character: keeps empty pieces, and the empty string splits to
one empty piece. -/
def splitOnChar (sep : Char) : List Char → List (List Char)
  | [] => [[]]
  | c :: cs =>
    match splitOnChar sep cs with
    | [] => [[]]
    | p :: ps => if c = sep then [] :: p :: ps else (c :: p) :: ps

/-- JavaScript `String.prototype.replace` with a non-global
pattern: removes the first occurrence of `pat` only. -/
def removeFirstOcc (pat : List Char) : List Char → List Char
  | [] => []
  | c :: cs =>
    if pat.isPrefixOf (c :: cs) then (c :: cs).drop pat.length
    else c :: removeFirstOcc pat cs

/-- Value of a run of decimal digits. -/
def digitsToNat (l : List Char) : Nat :=
  l.foldl (fun a c => a * 10 + (c.toNat - 48)) 0

/-- JavaScript `parseInt(s, 10)`: skip leading whitespace, read an
optional sign, then a maximal run of decimal digits; `NaN` when no
digit is found. -/
def parseIntJS (l : List Char) : JsNum :=
  let l1 := l.dropWhile (fun c => c = ' ')
  match l1 with
  | '-' :: r =>
    let ds := r.takeWhile Char.isDigit
    if ds.isEmpty then JsNum.nan else JsNum.int (-(digitsToNat ds : Int))
  | '+' :: r =>
    let ds := r.takeWhile Char.isDigit
    if ds.isEmpty then JsNum.nan else JsNum.int (digitsToNat ds : Int)
  | r =>
    let ds := r.takeWhile Char.isDigit
    if ds.isEmpty then JsNum.nan else JsNum.int (digitsToNat ds : Int)

/-! ## FileServer.handleRangeRequest (fileServer.ts lines 222-259) -/

/-- Lines 229-231 of `FileServer.handleRangeRequest`:
`const parts = rangeHeader.replace(/bytes=/, '').split('-');`
`const start = parseInt(parts[0], 10);`
`const end = parts[1] ? parseInt(parts[1], 10) : fileSize - 1;`
(an absent or empty `parts[1]` is falsy, so the end defaults to
`fileSize - 1`). -/
def parseRange (fileSize : Int) (rangeHeader : List Char) : JsNum × JsNum :=
  let parts := splitOnChar '-' (removeFirstOcc "bytes=".toList rangeHeader)
  let s := parseIntJS (parts.headD [])
  let e := match parts[1]? with
    | some p => if p.isEmpty then JsNum.int (fileSize - 1) else parseIntJS p
    | none => JsNum.int (fileSize - 1)
  (s, e)

/-- Outcome of `handleRangeRequest` as observed on the wire.
`streamFail` models the path where `fs.createReadStream(filePath,
{ start, end })` rejects a `NaN`/negative bound with a synchronous
throw, which the caller `handleFileDownload` catches and turns
into a `500` error response (fileServer.ts lines 177-180). -/
inductive RangeOutcome : Type where
  | notSatisfiable (contentRange : String) : RangeOutcome
  | ranged (contentRange : String) (contentLength : JsNum) (body : List Nat) : RangeOutcome
  | streamFail : RangeOutcome
deriving DecidableEq, Repr

/-- Node's `fs.createReadStream(filePath, { start, end })` on valid
bounds: streams the bytes of the file from `start` to `end`
inclusive. -/
def readStreamRange (content : List Nat) (s e : Nat) : List Nat :=
  (content.drop s).take (e - s + 1)

/-- `FileServer.handleRangeRequest` (fileServer.ts lines 222-259):
parses the header, computes `chunkSize = (end - start) + 1`, sends
`416` with `Content-Range: bytes */size` when
`start >= fileSize || end >= fileSize || start > end`, otherwise
sends `206` with `Content-Range: bytes start-end/size`,
`Content-Length = chunkSize` and the byte range streamed by
`fs.createReadStream` (which rejects non-integer or negative
bounds, surfacing as a caught error / `500`). -/
def handleRangeRequest (content : List Nat) (fileSize : Int)
    (rangeHeader : String) : RangeOutcome :=
  let p := parseRange fileSize rangeHeader.toList
  let s := p.1
  let e := p.2
  if jsGe s (JsNum.int fileSize) || jsGe e (JsNum.int fileSize) || jsGt s e then
    RangeOutcome.notSatisfiable ("bytes */" ++ toString fileSize)
  else
    match s, e with
    | JsNum.int si, JsNum.int ei =>
      if si < 0 ∨ ei < 0 then RangeOutcome.streamFail
      else
        RangeOutcome.ranged
          ("bytes " ++ jsToString s ++ "-" ++ jsToString e ++ "/" ++ toString fileSize)
          (JsNum.int (ei - si + 1))
          (readStreamRange content si.toNat ei.toNat)
    | _, _ => RangeOutcome.streamFail

/-! ## FileService: the token-addressed temporary file registry
(fileService.ts) -/

/-- `TempFile` record from `src/types` as used by `FileService`. -/
structure TempFile : Type where
  id : String
  filePath : String
  publicUrl : String
  expiresAt : Int
  chatId : Int
  jobId : String
deriving DecidableEq, Repr

/-- First binding of a key in an association-list map (JS `Map.get`). -/
def mapGet (k : String) : List (String × α) → Option α
  | [] => none
  | p :: ps => if p.1 = k then some p.2 else mapGet k ps

/-- Remove every binding of a key (JS `Map.delete`). -/
def mapDelete (k : String) (l : List (String × α)) : List (String × α) :=
  l.filter (fun p => p.1 ≠ k)

/-- Insert or overwrite a binding (JS `Map.set`). -/
def mapSet (k : String) (v : α) (l : List (String × α)) : List (String × α) :=
  mapDelete k l ++ [(k, v)]

/-- Combined state of the registry's `tempFiles` map and the
filesystem (path to byte content) it writes into. -/
structure FsState : Type where
  tempFiles : List (String × TempFile)
  disk : List (String × List Nat)
deriving DecidableEq, Repr

/-- `FileService.cleanupTempFile` (fileService.ts lines 201-222):
when the token is registered, `fs.unlink` its path (a failed unlink
is only logged) and delete the map entry; otherwise do nothing. -/
def cleanupTempFile (st : FsState) (token : String) : FsState :=
  match mapGet token st.tempFiles with
  | some tf =>
    { tempFiles := mapDelete token st.tempFiles
      disk := mapDelete tf.filePath st.disk }
  | none => st

/-- `FileService.getTempFile` (fileService.ts lines 153-163): look
the token up; if present and `expiresAt < now` (strict JS `<` on
dates), clean it up and report `undefined`; otherwise return the
lookup result unchanged.  Returns the result and the new state. -/
def getTempFile (st : FsState) (token : String) (now : Int) :
    Option TempFile × FsState :=
  match mapGet token st.tempFiles with
  | some tf =>
    if tf.expiresAt < now then (none, cleanupTempFile st token)
    else (some tf, st)
  | none => (none, st)

/-- `FileService.cleanupExpiredFiles` (fileService.ts lines
227-246): collect every token whose record has `expiresAt < now`
(strict `<`), then `cleanupTempFile` each; returns the count. -/
def cleanupExpiredFiles (st : FsState) (now : Int) : FsState × Nat :=
  let expired := (st.tempFiles.filter (fun p => p.2.expiresAt < now)).map (fun p => p.1)
  (expired.foldl cleanupTempFile st, expired.length)

/-- Outcome of the underlying `fs.writeFile` in
`FileService.saveTempFile`: success, or a failure that left some
partially written bytes at the target path. -/
inductive WriteOutcome : Type where
  | ok : WriteOutcome
  | failPartial (written : List Nat) : WriteOutcome
deriving DecidableEq, Repr

/-- `FileService.saveTempFile` (fileService.ts lines 110-148):
write the buffer, register the `TempFile` under a fresh token and
return it; on a write failure the catch block only logs and
rethrows — the partially written bytes stay on disk and no registry
entry is made. -/
def saveTempFile (st : FsState) (buffer : List Nat) (chatId : Int)
    (jobId token filePath : String) (now ttlMs : Int) (w : WriteOutcome) :
    Except String TempFile × FsState :=
  match w with
  | WriteOutcome.ok =>
    let tf : TempFile :=
      { id := token, filePath := filePath,
        publicUrl := "/download/" ++ token,
        expiresAt := now + ttlMs, chatId := chatId, jobId := jobId }
    (Except.ok tf,
     { tempFiles := mapSet token tf st.tempFiles
       disk := mapSet filePath buffer st.disk })
  | WriteOutcome.failPartial written =>
    (Except.error "Failed to save temporary file",
     { st with disk := mapSet filePath written st.disk })

/-- Outcome of the piped source stream in
`FileService.createTempFileFromStream`: the stream finished having
delivered `bytes`, or the stream or the write stream errored after
`written` bytes reached the file. -/
inductive StreamOutcome : Type where
  | finished (bytes : List Nat) : StreamOutcome
  | errored (written : List Nat) : StreamOutcome
deriving DecidableEq, Repr

/-- `FileService.createTempFileFromStream` (fileService.ts lines
50-105): pipe the stream into the file and register the `TempFile`
on finish; on any stream or write error the catch block
`fs.unlink`s the file (removing the partial bytes) before
rethrowing, and no registry entry is made. -/
def createTempFileFromStream (st : FsState) (o : StreamOutcome)
    (chatId : Int) (jobId token filePath : String) (now ttlMs : Int) :
    Except String TempFile × FsState :=
  match o with
  | StreamOutcome.finished bytes =>
    let tf : TempFile :=
      { id := token, filePath := filePath,
        publicUrl := "/download/" ++ token,
        expiresAt := now + ttlMs, chatId := chatId, jobId := jobId }
    (Except.ok tf,
     { tempFiles := mapSet token tf st.tempFiles
       disk := mapSet filePath bytes st.disk })
  | StreamOutcome.errored written =>
    (Except.error "Failed to create temporary file",
     { st with disk := mapDelete filePath (mapSet filePath written st.disk) })

/-! ## FileServer.handleFileDownload (fileServer.ts lines 106-181) -/

/-- Response of `GET /download/:token` as observed on the wire. -/
inductive DownloadResult : Type where
  | badRequest : DownloadResult
  | notFound : DownloadResult
  | full (body : List Nat) : DownloadResult
  | range (r : RangeOutcome) : DownloadResult
deriving DecidableEq, Repr

/-- `FileServer.handleFileDownload` (fileServer.ts lines 106-181):
reject an empty token with 400; resolve the token through
`getTempFile` (404 when absent or expired); when the registry entry
exists but the file is gone from disk, `cleanupTempFile` the token
and respond 404; otherwise serve the file, via
`handleRangeRequest` when a Range header is present. -/
def handleFileDownload (st : FsState) (token : String) (now : Int)
    (rangeHeader : Option String) : DownloadResult × FsState :=
  if token = "" then (DownloadResult.badRequest, st)
  else
    match getTempFile st token now with
    | (none, st1) => (DownloadResult.notFound, st1)
    | (some tf, st1) =>
      match mapGet tf.filePath st1.disk with
      | none => (DownloadResult.notFound, cleanupTempFile st1 token)
      | some content =>
        match rangeHeader with
        | some r =>
          (DownloadResult.range
            (handleRangeRequest content (content.length : Int) r), st1)
        | none => (DownloadResult.full content, st1)

/-! ## AsyncJobHandler: the async job state machine
(asyncJobHandler.ts) -/

/-- `DownloadJob.status` values from `src/types`. -/
inductive JobStatus : Type where
  | queued : JobStatus
  | processing : JobStatus
  | ready : JobStatus
  | failed : JobStatus
deriving DecidableEq, Repr

/-- The fields of an `AsyncJob` record that the poll loop, the
completion handler and `cancelJob` read or mutate. -/
structure AsyncJob : Type where
  status : JobStatus
  pollCount : Nat
  retryCount : Nat
  error : Option String
  filePath : Option String
deriving DecidableEq, Repr

/-- What one `apiService.getJobStatus` poll of a job observes:
a remote status (for `ready`, with its optional download URL and
whether the subsequent download/registration succeeds), or a
transport error thrown by the status call itself. -/
inductive PollResult : Type where
  | remoteQueued : PollResult
  | remoteProcessing : PollResult
  | remoteReady (downloadUrl : Option String) (downloadOk : Bool) : PollResult
  | remoteFailed (err : Option String) : PollResult
  | transportError : PollResult
deriving DecidableEq, Repr

/-- `AsyncJobHandler.handleJobFailed` (asyncJobHandler.ts lines
260-299): set `status = failed`, record `status.error || 'Job
failed'`; the job stays in the map (deletion is only scheduled
after a 5-minute delay). -/
def handleJobFailed (j : AsyncJob) (err : Option String) : AsyncJob :=
  { j with status := JobStatus.failed, error := some (err.getD "Job failed") }

/-- `AsyncJobHandler.handleJobCompleted` (asyncJobHandler.ts lines
197-255): throw `'No download URL provided'` when the remote
omitted the download URL (the catch turns this into
`handleJobFailed`); otherwise set `status = ready`, download and
register the artifact (a failure there is also caught and turned
into `handleJobFailed` with the error message). -/
def handleJobCompleted (j : AsyncJob) (downloadUrl : Option String)
    (downloadOk : Bool) : AsyncJob :=
  match downloadUrl with
  | none => handleJobFailed j (some "No download URL provided")
  | some u =>
    let j1 := { j with status := JobStatus.ready }
    if downloadOk then { j1 with filePath := some u }
    else handleJobFailed j1 (some "Processing failed")

/-- `AsyncJobHandler.pollJob` (asyncJobHandler.ts lines 130-192):
on a successful status call, bump `pollCount` and dispatch on the
remote status (remote `queued` writes `status = queued` back even
from `processing`); on a transport error, bump `retryCount` and
when it reaches 5 force `handleJobFailed` with `'Too many polling
failures'`, otherwise leave the job unchanged. -/
def pollJob (j : AsyncJob) (r : PollResult) : AsyncJob :=
  match r with
  | PollResult.transportError =>
    let j1 := { j with retryCount := j.retryCount + 1 }
    if j1.retryCount ≥ 5 then handleJobFailed j1 (some "Too many polling failures")
    else j1
  | PollResult.remoteQueued =>
    let j1 := { j with pollCount := j.pollCount + 1 }
    if j1.status ≠ JobStatus.queued then { j1 with status := JobStatus.queued } else j1
  | PollResult.remoteProcessing =>
    { j with pollCount := j.pollCount + 1, status := JobStatus.processing }
  | PollResult.remoteReady downloadUrl downloadOk =>
    handleJobCompleted { j with pollCount := j.pollCount + 1 } downloadUrl downloadOk
  | PollResult.remoteFailed err =>
    handleJobFailed { j with pollCount := j.pollCount + 1 } err

/-- One poll-loop step on one job of the jobs map.
`AsyncJobHandler.pollJobs` (lines 107-125) only polls jobs whose
status is `queued` or `processing`; a terminal job is skipped. -/
def pollStep (jobs : List (String × AsyncJob)) (id : String)
    (r : PollResult) : List (String × AsyncJob) :=
  match mapGet id jobs with
  | some j =>
    if j.status = JobStatus.queued ∨ j.status = JobStatus.processing then
      mapSet id (pollJob j r) jobs
    else jobs
  | none => jobs

/-- `AsyncJobHandler.cancelJob` (asyncJobHandler.ts lines 514-542):
whenever the job id is present — its status is not checked — set
`status = failed` with `'Cancelled by user'`; deletion is only
scheduled after a delay. -/
def cancelStep (jobs : List (String × AsyncJob)) (id : String) :
    List (String × AsyncJob) :=
  match mapGet id jobs with
  | some j =>
    mapSet id
      { j with status := JobStatus.failed, error := some "Cancelled by user" }
      jobs
  | none => jobs

/-! ## DownloadHandler.createTempFileFromStream: the synchronous
download pipeline (downloadHandler.ts lines 145-284) -/

/-- What the synchronous source stream did: the source stream
errored after `written` bytes, the write stream errored after
`written` bytes, or the transfer finished having delivered
`bytes`. -/
inductive SyncStreamOutcome : Type where
  | sourceErr (written : List Nat) : SyncStreamOutcome
  | writeErr (written : List Nat) : SyncStreamOutcome
  | finished (bytes : List Nat) : SyncStreamOutcome
deriving DecidableEq, Repr

/-- `DownloadHandler.createTempFileFromStream` (downloadHandler.ts
lines 145-284): on a source-stream or write-stream error, destroy
the write stream, `fs.unlink` the partial file and reject; on
finish with zero bytes delivered (`!hasData || downloadedBytes ===
0`) throw `'No data received from stream'` (rejecting without
registering anything); on finish with data, read the file back and
register it through `fileService.saveTempFile` (the original path
equals the managed path, so no extra unlink happens). -/
def syncCreateTempFileFromStream (st : FsState) (o : SyncStreamOutcome)
    (chatId : Int) (jobId token filePath : String) (now ttlMs : Int) :
    Except String TempFile × FsState :=
  match o with
  | SyncStreamOutcome.sourceErr written =>
    (Except.error "Stream error during download",
     { st with disk := mapDelete filePath (mapSet filePath written st.disk) })
  | SyncStreamOutcome.writeErr written =>
    (Except.error "Write stream error",
     { st with disk := mapDelete filePath (mapSet filePath written st.disk) })
  | SyncStreamOutcome.finished bytes =>
    if bytes.length = 0 then
      (Except.error "No data received from stream",
       { st with disk := mapSet filePath bytes st.disk })
    else
      saveTempFile { st with disk := mapSet filePath bytes st.disk }
        bytes chatId jobId token filePath now ttlMs WriteOutcome.ok

/-! ## Concrete fixtures used by witnesses and counterexamples -/

/-- A registered artifact expiring at time 100. -/
def tfSample : TempFile :=
  { id := "t", filePath := "p", publicUrl := "/download/t",
    expiresAt := 100, chatId := 1, jobId := "j" }

/-- Registry holding `tfSample` with its bytes on disk. -/
def stSample : FsState :=
  { tempFiles := [("t", tfSample)], disk := [("p", [7])] }

/-- Registry holding `tfSample` whose file is missing from disk. -/
def stMissing : FsState :=
  { tempFiles := [("t", tfSample)], disk := [] }

/-- A freshly submitted async job. -/
def jobQueued : AsyncJob :=
  { status := JobStatus.queued, pollCount := 0, retryCount := 0,
    error := none, filePath := none }

/-- An async job that has reached the terminal `ready` state. -/
def jobReady : AsyncJob :=
  { status := JobStatus.ready, pollCount := 3, retryCount := 0,
    error := none, filePath := some "f" }

/-! ## Helper lemmas -/

theorem mapGet_mapDelete_self (k : String) (l : List (String × α)) :
    mapGet k (mapDelete k l) = none := by
  induction l with
  | nil => rfl
  | cons p ps ih =>
    by_cases hp : p.1 = k
    · simpa [mapDelete, hp] using ih
    · simpa [mapDelete, mapGet, hp] using ih

theorem mapGet_mapDelete_ne (k k' : String) (l : List (String × α))
    (h : k ≠ k') : mapGet k (mapDelete k' l) = mapGet k l := by
  induction l with
  | nil => rfl
  | cons p ps ih =>
    by_cases hp : p.1 = k'
    · simp only [mapDelete, List.filter] at ih ⊢
      simp [mapGet, hp, Ne.symm h]
      simpa [mapDelete] using ih
    · by_cases hk : p.1 = k
      · simp [mapDelete, List.filter_cons, mapGet, hp, hk, h]
      · simp only [mapDelete, List.filter] at ih ⊢
        simp [mapGet, hp, hk]
        simpa [mapDelete] using ih

theorem mapGet_append (k : String) (l l' : List (String × α)) :
    mapGet k (l ++ l') =
      match mapGet k l with
      | some v => some v
      | none => mapGet k l' := by
  induction l with
  | nil => rfl
  | cons p ps ih =>
    by_cases hp : p.1 = k
    · simp [mapGet, hp]
    · simp [mapGet, hp]
      exact ih

theorem mapGet_mapSet_self (k : String) (v : α) (l : List (String × α)) :
    mapGet k (mapSet k v l) = some v := by
  rw [mapSet, mapGet_append, mapGet_mapDelete_self]
  simp [mapGet]

theorem mapGet_mapSet_ne (k k' : String) (v : α) (l : List (String × α))
    (h : k ≠ k') : mapGet k (mapSet k' v l) = mapGet k l := by
  rw [mapSet, mapGet_append, mapGet_mapDelete_ne k k' l h]
  cases hg : mapGet k l with
  | some w => rfl
  | none => simp [mapGet, Ne.symm h]

theorem mapGet_eq_none_of_forall (k : String) (l : List (String × α))
    (h : ∀ p ∈ l, p.1 ≠ k) : mapGet k l = none := by
  induction l with
  | nil => rfl
  | cons p ps ih =>
    have hp := h p (List.mem_cons_self p ps)
    simp [mapGet, hp]
    exact ih fun q hq => h q (List.mem_cons_of_mem p hq)

theorem forall_of_mapGet_eq_none (k : String) (l : List (String × α))
    (h : mapGet k l = none) : ∀ p ∈ l, p.1 ≠ k := by
  induction l with
  | nil => intro p hp; cases hp
  | cons p ps ih =>
    intro q hq
    by_cases hp : p.1 = k
    · simp [mapGet, hp] at h
    · rcases List.mem_cons.mp hq with hq1 | hq2
      · rw [hq1]; exact hp
      · exact ih (by simpa [mapGet, hp] using h) q hq2

theorem mem_of_mapGet_eq_some (k : String) (v : α) (l : List (String × α))
    (h : mapGet k l = some v) : (k, v) ∈ l := by
  induction l with
  | nil => cases h
  | cons p ps ih =>
    obtain ⟨a, b⟩ := p
    by_cases hp : a = k
    · simp [mapGet, hp] at h
      subst hp
      subst h
      exact List.mem_cons_self _ _
    · simp [mapGet, hp] at h
      exact List.mem_cons_of_mem _ (ih h)


theorem handleRangeRequest_eq (content : List Nat) (fileSize : Int) (h : String)
    (s e : JsNum) (hpe : parseRange fileSize h.toList = (s, e)) :
    handleRangeRequest content fileSize h =
      (if jsGe s (JsNum.int fileSize) || jsGe e (JsNum.int fileSize) || jsGt s e then
        RangeOutcome.notSatisfiable ("bytes */" ++ toString fileSize)
      else
        match s, e with
        | JsNum.int si, JsNum.int ei =>
          if si < 0 ∨ ei < 0 then RangeOutcome.streamFail
          else RangeOutcome.ranged
            ("bytes " ++ jsToString s ++ "-" ++ jsToString e ++ "/" ++ toString fileSize)
            (JsNum.int (ei - si + 1)) (readStreamRange content si.toNat ei.toNat)
        | _, _ => RangeOutcome.streamFail) := by
  unfold handleRangeRequest
  simp only [hpe]
  cases s <;> cases e <;> rfl

/-! ## Claim C1 -/

/-! ## Claim C1 -/


/-- Claim C1: for every registered unexpired artifact of size `S`
and every Range header `bytes=start-end` (end optional, defaulting
to `S-1`): if `start >= S` or `end >= S` or `start > end`, the
endpoint responds 416 with `Content-Range: bytes */S` and no body;
otherwise it responds 206 with `Content-Range: bytes start-end/S`,
`Content-Length = end-start+1`, and streams exactly the bytes
`start..end` of the stored content.  The hypothesis `hparse` says
the header carries the numeric positions `s` and `e` (with `e`
possibly supplied by the `size-1` default). -/
theorem range_request_contract (content : List Nat) (s e : Nat) (h : String)
    (hparse : parseRange (content.length : Int) h.toList =
      (JsNum.int (s : Int), JsNum.int (e : Int))) :
    ((s ≥ content.length ∨ e ≥ content.length ∨ s > e) →
      handleRangeRequest content (content.length : Int) h =
        RangeOutcome.notSatisfiable ("bytes */" ++ toString (content.length : Int))) ∧
    (s < content.length → e < content.length → s ≤ e →
      handleRangeRequest content (content.length : Int) h =
        RangeOutcome.ranged
          ("bytes " ++ toString (s : Int) ++ "-" ++ toString (e : Int) ++ "/" ++
            toString (content.length : Int))
          (JsNum.int ((e : Int) - (s : Int) + 1))
          ((content.drop s).take (e - s + 1)) ∧
      ((content.drop s).take (e - s + 1)).length = e - s + 1 ∧
      ∀ i : Nat, i < e - s + 1 →
        ((content.drop s).take (e - s + 1))[i]? = content[s + i]?) := by
  have hparse' : parseRange (content.length : Int) h.data =
      (JsNum.int (s : Int), JsNum.int (e : Int)) := hparse
  constructor
  · intro hcond
    have hb : (jsGe (JsNum.int (s : Int)) (JsNum.int (content.length : Int)) ||
        jsGe (JsNum.int (e : Int)) (JsNum.int (content.length : Int)) ||
        jsGt (JsNum.int (s : Int)) (JsNum.int (e : Int))) = true := by
      simp [jsGe, jsGt]
      omega
    simp [handleRangeRequest, hparse', hb]
  · intro hs he hse
    have hb1 : jsGe (JsNum.int (s : Int)) (JsNum.int (content.length : Int)) = false := by
      simp [jsGe]
      omega
    have hb2 : jsGe (JsNum.int (e : Int)) (JsNum.int (content.length : Int)) = false := by
      simp [jsGe]
      omega
    have hb3 : jsGt (JsNum.int (s : Int)) (JsNum.int (e : Int)) = false := by
      simp [jsGt]
      omega
    refine ⟨?_, ?_, ?_⟩
    · simp [handleRangeRequest, hparse', hb1, hb2, hb3, jsToString, readStreamRange]
    · simp only [List.length_take, List.length_drop]
      omega
    · intro i hi
      rw [List.getElem?_take, if_pos hi, List.getElem?_drop]

/-- Witness for C1 at a concrete 5-byte artifact and the header
`bytes=1-3`. -/
theorem range_request_contract_witness :
    (parseRange ((([1, 2, 3, 4, 5] : List Nat).length : Int))
        ("bytes=1-3").toList = (JsNum.int ((1 : Nat) : Int), JsNum.int ((3 : Nat) : Int))) ∧
    (((1 ≥ ([1, 2, 3, 4, 5] : List Nat).length ∨ 3 ≥ ([1, 2, 3, 4, 5] : List Nat).length ∨ 1 > 3) →
      handleRangeRequest [1, 2, 3, 4, 5] (([1, 2, 3, 4, 5] : List Nat).length : Int) "bytes=1-3" =
        RangeOutcome.notSatisfiable ("bytes */" ++ toString ((([1, 2, 3, 4, 5] : List Nat).length : Int)))) ∧
    (1 < ([1, 2, 3, 4, 5] : List Nat).length → 3 < ([1, 2, 3, 4, 5] : List Nat).length → 1 ≤ 3 →
      handleRangeRequest [1, 2, 3, 4, 5] (([1, 2, 3, 4, 5] : List Nat).length : Int) "bytes=1-3" =
        RangeOutcome.ranged
          ("bytes " ++ toString ((1 : Nat) : Int) ++ "-" ++ toString ((3 : Nat) : Int) ++ "/" ++
            toString ((([1, 2, 3, 4, 5] : List Nat).length : Int)))
          (JsNum.int (((3 : Nat) : Int) - ((1 : Nat) : Int) + 1))
          ((([1, 2, 3, 4, 5] : List Nat).drop 1).take (3 - 1 + 1)) ∧
      ((([1, 2, 3, 4, 5] : List Nat).drop 1).take (3 - 1 + 1)).length = 3 - 1 + 1 ∧
      ∀ i : Nat, i < 3 - 1 + 1 →
        ((([1, 2, 3, 4, 5] : List Nat).drop 1).take (3 - 1 + 1))[i]? = ([1, 2, 3, 4, 5] : List Nat)[1 + i]?)) :=
  ⟨by decide, range_request_contract [1, 2, 3, 4, 5] 1 3 "bytes=1-3" (by decide)⟩

/-! ## Claim C2 -/

/-- Claim C2 counterexample: on a 1000-byte artifact,
`Range: bytes=999-2000` does NOT yield a 206 with the end clamped
to 999; the code's validation `end >= fileSize` rejects it with
416 `Content-Range: bytes */1000`. -/
theorem range_clamp_counterexample :
    handleRangeRequest (List.replicate 1000 0) 1000 "bytes=999-2000" =
      RangeOutcome.notSatisfiable "bytes */1000" ∧
    handleRangeRequest (List.replicate 1000 0) 1000 "bytes=999-2000" ≠
      RangeOutcome.ranged "bytes 999-999/1000" (JsNum.int 1) [0] := by
  constructor
  · rfl
  · intro hcontra
    cases hcontra

/-- Claim C2 as amended: for a registered artifact of exactly 1000
bytes, `Range: bytes=999-2000` yields 416 Range Not Satisfiable
with `Content-Range: bytes */1000` and no body — an end position
past the file size is rejected by the `end >= fileSize` check, not
clamped to `size - 1`. -/
theorem range_end_past_size_rejected (content : List Nat)
    (hlen : content.length = 1000) :
    handleRangeRequest content (content.length : Int) "bytes=999-2000" =
      RangeOutcome.notSatisfiable "bytes */1000" := by
  rw [hlen]
  have hcast : ((1000 : Nat) : Int) = (1000 : Int) := by norm_cast
  rw [hcast]
  rw [handleRangeRequest_eq content 1000 "bytes=999-2000"
    (JsNum.int 999) (JsNum.int 2000) (by decide)]
  rfl

/-- Witness for the amended C2 at the concrete 1000-byte artifact
`List.replicate 1000 0`. -/
theorem range_end_past_size_rejected_witness :
    ((List.replicate 1000 (0 : Nat)).length = 1000) ∧
    handleRangeRequest (List.replicate 1000 0)
        (((List.replicate 1000 (0 : Nat)).length : Nat) : Int) "bytes=999-2000" =
      RangeOutcome.notSatisfiable "bytes */1000" :=
  ⟨by rw [List.length_replicate],
   range_end_past_size_rejected (List.replicate 1000 0) (by rw [List.length_replicate])⟩

/-! ## Claim C8 -/

/-- Claim C8: for every syntactically malformed Range header value
(one whose start or end position parses to NaN, as in `bytes=-500`
or `bytes=abc-10`), the download endpoint never serves a body
disagreeing with its declared Content-Length and never crashes:
the response is an error status — either 416 (when the remaining
numeric position already fails validation) or 500 (the NaN reaches
`fs.createReadStream`, whose synchronous throw is caught by
`handleFileDownload` and answered with status 500); no content
body is ever streamed. -/
theorem malformed_range_is_error (content : List Nat) (fileSize : Int)
    (h : String)
    (hmal : (parseRange fileSize h.toList).1 = JsNum.nan ∨
            (parseRange fileSize h.toList).2 = JsNum.nan) :
    handleRangeRequest content fileSize h =
        RangeOutcome.notSatisfiable ("bytes */" ++ toString fileSize) ∨
    handleRangeRequest content fileSize h = RangeOutcome.streamFail := by
  rcases hpe : parseRange fileSize h.toList with ⟨s, e⟩
  rw [hpe] at hmal
  replace hmal : s = JsNum.nan ∨ e = JsNum.nan := hmal
  rw [handleRangeRequest_eq content fileSize h s e hpe]
  by_cases hcond : (jsGe s (JsNum.int fileSize) || jsGe e (JsNum.int fileSize) ||
      jsGt s e) = true
  · left
    rw [if_pos hcond]
  · right
    rw [if_neg hcond]
    rcases hmal with h1 | h1
    · subst h1
      cases e <;> rfl
    · subst h1
      cases s <;> rfl

/-- Witness for C8: the malformed header `bytes=abc-10` against a
3-byte artifact (here the leftover numeric end 10 already exceeds
the size, so the 416 disjunct holds). -/
theorem malformed_range_is_error_witness :
    ((parseRange 3 ("bytes=abc-10").toList).1 = JsNum.nan ∨
     (parseRange 3 ("bytes=abc-10").toList).2 = JsNum.nan) ∧
    (handleRangeRequest [0, 0, 0] 3 "bytes=abc-10" =
        RangeOutcome.notSatisfiable ("bytes */" ++ toString (3 : Int)) ∨
     handleRangeRequest [0, 0, 0] 3 "bytes=abc-10" = RangeOutcome.streamFail) :=
  ⟨by decide, malformed_range_is_error [0, 0, 0] 3 "bytes=abc-10" (by decide)⟩

/-! ## Claim C7 -/

theorem mem_cleanupTempFile (st : FsState) (t : String) (p : String × TempFile)
    (hp : p ∈ (cleanupTempFile st t).tempFiles) : p ∈ st.tempFiles ∧ p.1 ≠ t := by
  unfold cleanupTempFile at hp
  cases hg : mapGet t st.tempFiles with
  | some tf =>
    rw [hg] at hp
    unfold mapDelete at hp
    have hm := List.mem_filter.mp hp
    refine ⟨hm.1, ?_⟩
    simpa using hm.2
  | none =>
    rw [hg] at hp
    exact ⟨hp, forall_of_mapGet_eq_none t st.tempFiles hg p hp⟩

theorem mem_foldl_cleanup (L : List String) (st : FsState) (p : String × TempFile)
    (hp : p ∈ (L.foldl cleanupTempFile st).tempFiles) :
    p ∈ st.tempFiles ∧ p.1 ∉ L := by
  induction L generalizing st with
  | nil => exact ⟨hp, by simp⟩
  | cons t ts ih =>
    have h1 := ih (cleanupTempFile st t) (by simpa using hp)
    have h2 := mem_cleanupTempFile st t p h1.1
    refine ⟨h2.1, ?_⟩
    simp only [List.mem_cons, not_or]
    exact ⟨h2.2, h1.2⟩

/-- Claim C7 counterexample: at the instant `now = expiresAt`
(both 100 here) the artifact is NOT gone: `getTempFile` still
returns it, and the sweep evicts nothing — the code compares with
strict `<` while the claim demands eviction already at
`now >= expiresAt` / `expiresAt <= now`. -/
theorem expiry_boundary_counterexample :
    (getTempFile stSample "t" 100).1 = some tfSample ∧
    (cleanupExpiredFiles stSample 100).2 = 0 ∧
    mapGet "t" ((cleanupExpiredFiles stSample 100).1).tempFiles = some tfSample := by
  decide

/-- Claim C7 as amended: a registered token resolves to not-found
(with lazy eviction) exactly when `now > expiresAt` (strict); at
`now = expiresAt` the artifact is still returned; and the periodic
sweep evicts every entry with `expiresAt < now` (strict), so every
entry surviving the sweep has `now ≤ expiresAt`. -/
theorem expiry_eviction (st : FsState) (token : String) (tf : TempFile)
    (now : Int) (hget : mapGet token st.tempFiles = some tf) :
    (tf.expiresAt < now →
      (getTempFile st token now).1 = none ∧
      mapGet token ((getTempFile st token now).2).tempFiles = none) ∧
    (now ≤ tf.expiresAt → getTempFile st token now = (some tf, st)) ∧
    (∀ tf', mapGet token ((cleanupExpiredFiles st now).1).tempFiles = some tf' →
      now ≤ tf'.expiresAt) := by
  refine ⟨?_, ?_, ?_⟩
  · intro hlt
    have hcl : cleanupTempFile st token =
        { tempFiles := mapDelete token st.tempFiles
          disk := mapDelete tf.filePath st.disk } := by
      unfold cleanupTempFile
      rw [hget]
    constructor
    · simp [getTempFile, hget, hlt]
    · simp [getTempFile, hget, hlt, hcl, mapGet_mapDelete_self]
  · intro hle
    have hnlt : ¬ tf.expiresAt < now := not_lt.mpr hle
    simp [getTempFile, hget, hnlt]
  · intro tf' hA
    have hmem : (token, tf') ∈ ((cleanupExpiredFiles st now).1).tempFiles :=
      mem_of_mapGet_eq_some _ _ _ hA
    unfold cleanupExpiredFiles at hmem
    have hfold := mem_foldl_cleanup _ st (token, tf') hmem
    by_contra hlt
    rw [not_le] at hlt
    apply hfold.2
    refine List.mem_map.mpr ⟨(token, tf'), List.mem_filter.mpr ⟨hfold.1, ?_⟩, rfl⟩
    simpa using hlt

/-- Witness for the amended C7 at `stSample` and `now = 101`
(just past expiry). -/
theorem expiry_eviction_witness :
    (mapGet "t" stSample.tempFiles = some tfSample) ∧
    ((tfSample.expiresAt < 101 →
      (getTempFile stSample "t" 101).1 = none ∧
      mapGet "t" ((getTempFile stSample "t" 101).2).tempFiles = none) ∧
    ((101 : Int) ≤ tfSample.expiresAt → getTempFile stSample "t" 101 = (some tfSample, stSample)) ∧
    (∀ tf', mapGet "t" ((cleanupExpiredFiles stSample 101).1).tempFiles = some tf' →
      (101 : Int) ≤ tf'.expiresAt)) :=
  ⟨by decide, expiry_eviction stSample "t" tfSample 101 (by decide)⟩

/-! ## Claim C10 -/

/-- Claim C10: for a token whose registry entry exists and is
unexpired but whose file is absent from disk, `GET
/download/{token}` responds 404 (the handled path, not 500),
evicts the registry entry, and a subsequent resolve of the same
token also reports not-found. -/
theorem missing_file_404 (st : FsState) (token : String) (tf : TempFile)
    (now now2 : Int) (rangeHeader : Option String)
    (htok : token ≠ "")
    (hget : mapGet token st.tempFiles = some tf)
    (hunexp : ¬ tf.expiresAt < now)
    (hdisk : mapGet tf.filePath st.disk = none) :
    (handleFileDownload st token now rangeHeader).1 = DownloadResult.notFound ∧
    mapGet token ((handleFileDownload st token now rangeHeader).2).tempFiles = none ∧
    (getTempFile ((handleFileDownload st token now rangeHeader).2) token now2).1 = none := by
  have hres : getTempFile st token now = (some tf, st) := by
    simp [getTempFile, hget, hunexp]
  have hcl : cleanupTempFile st token =
      { tempFiles := mapDelete token st.tempFiles
        disk := mapDelete tf.filePath st.disk } := by
    unfold cleanupTempFile
    rw [hget]
  have hdl : handleFileDownload st token now rangeHeader =
      (DownloadResult.notFound, cleanupTempFile st token) := by
    simp [handleFileDownload, htok, hres, hdisk]
  refine ⟨by rw [hdl], ?_, ?_⟩
  · rw [hdl, hcl]
    exact mapGet_mapDelete_self _ _
  · rw [hdl]
    have hnone : mapGet token (cleanupTempFile st token).tempFiles = none := by
      rw [hcl]
      exact mapGet_mapDelete_self _ _
    simp [getTempFile, hnone]

/-- Witness for C10 at `stMissing` (entry registered, no file on
disk), `now = 50` (unexpired). -/
theorem missing_file_404_witness :
    (("t" : String) ≠ "" ∧ mapGet "t" stMissing.tempFiles = some tfSample ∧
     ¬ tfSample.expiresAt < 50 ∧ mapGet tfSample.filePath stMissing.disk = none) ∧
    ((handleFileDownload stMissing "t" 50 none).1 = DownloadResult.notFound ∧
     mapGet "t" ((handleFileDownload stMissing "t" 50 none).2).tempFiles = none ∧
     (getTempFile ((handleFileDownload stMissing "t" 50 none).2) "t" 60).1 = none) :=
  ⟨by decide,
   missing_file_404 stMissing "t" tfSample 50 60 none (by decide) (by decide)
     (by decide) (by decide)⟩

/-! ## Claim C6 -/

/-- Claim C6 counterexample: buffer-based registration
(`FileService.saveTempFile`) whose underlying write fails after
writing one byte propagates the error while the partially written
byte is still on disk — its catch block only logs and rethrows,
with no `fs.unlink`. -/
theorem register_cleanup_counterexample :
    (saveTempFile { tempFiles := [], disk := [] } [1, 2, 3] 1 "job" "tok" "f" 0
        1000 (WriteOutcome.failPartial [1])).1 =
      Except.error "Failed to save temporary file" ∧
    mapGet "f" ((saveTempFile { tempFiles := [], disk := [] } [1, 2, 3] 1 "job"
        "tok" "f" 0 1000 (WriteOutcome.failPartial [1])).2).disk = some [1] :=
  ⟨rfl, rfl⟩

/-- Claim C6 as amended: when the underlying storage write fails,
stream-based registration (`createTempFileFromStream`) removes the
partially written bytes before propagating the error, but
buffer-based registration (`saveTempFile`) propagates the error
with the partially written bytes left on disk; in both cases no
registry entry for the failed token remains. -/
theorem register_failure_behavior (st : FsState) (buffer written : List Nat)
    (chatId : Int) (jobId token filePath : String) (now ttlMs : Int)
    (hfresh : mapGet token st.tempFiles = none) :
    ((createTempFileFromStream st (StreamOutcome.errored written) chatId jobId
        token filePath now ttlMs).1 =
      Except.error "Failed to create temporary file" ∧
     mapGet filePath ((createTempFileFromStream st (StreamOutcome.errored written)
        chatId jobId token filePath now ttlMs).2).disk = none ∧
     mapGet token ((createTempFileFromStream st (StreamOutcome.errored written)
        chatId jobId token filePath now ttlMs).2).tempFiles = none) ∧
    ((saveTempFile st buffer chatId jobId token filePath now ttlMs
        (WriteOutcome.failPartial written)).1 =
      Except.error "Failed to save temporary file" ∧
     mapGet filePath ((saveTempFile st buffer chatId jobId token filePath now
        ttlMs (WriteOutcome.failPartial written)).2).disk = some written ∧
     mapGet token ((saveTempFile st buffer chatId jobId token filePath now ttlMs
        (WriteOutcome.failPartial written)).2).tempFiles = none) := by
  refine ⟨⟨rfl, ?_, ?_⟩, rfl, ?_, ?_⟩
  · simp only [createTempFileFromStream]
    exact mapGet_mapDelete_self _ _
  · simpa only [createTempFileFromStream] using hfresh
  · simp only [saveTempFile]
    exact mapGet_mapSet_self _ _ _
  · simpa only [saveTempFile] using hfresh

/-- Witness for the amended C6 on the empty registry. -/
theorem register_failure_behavior_witness :
    (mapGet "tok" (FsState.mk [] []).tempFiles = none) ∧
    (((createTempFileFromStream { tempFiles := [], disk := [] }
        (StreamOutcome.errored [1]) 1 "job" "tok" "f" 0 1000).1 =
      Except.error "Failed to create temporary file" ∧
     mapGet "f" ((createTempFileFromStream { tempFiles := [], disk := [] }
        (StreamOutcome.errored [1]) 1 "job" "tok" "f" 0 1000).2).disk = none ∧
     mapGet "tok" ((createTempFileFromStream { tempFiles := [], disk := [] }
        (StreamOutcome.errored [1]) 1 "job" "tok" "f" 0 1000).2).tempFiles = none) ∧
    ((saveTempFile { tempFiles := [], disk := [] } [1, 2, 3] 1 "job" "tok" "f" 0
        1000 (WriteOutcome.failPartial [1])).1 =
      Except.error "Failed to save temporary file" ∧
     mapGet "f" ((saveTempFile { tempFiles := [], disk := [] } [1, 2, 3] 1 "job"
        "tok" "f" 0 1000 (WriteOutcome.failPartial [1])).2).disk = some [1] ∧
     mapGet "tok" ((saveTempFile { tempFiles := [], disk := [] } [1, 2, 3] 1
        "job" "tok" "f" 0 1000 (WriteOutcome.failPartial [1])).2).tempFiles = none)) :=
  ⟨by decide,
   register_failure_behavior { tempFiles := [], disk := [] } [1, 2, 3] [1] 1
     "job" "tok" "f" 0 1000 (by decide)⟩

/-! ## Claim C9 -/

/-- Claim C9: in the synchronous download pipeline
(`DownloadHandler.createTempFileFromStream`), a source-stream or
write-stream error mid-transfer discards all partially written
bytes from storage and surfaces a download-failure error, and a
stream that finishes having delivered zero bytes is itself treated
as an error (`'No data received from stream'`) and never
materialized as a registered artifact. -/
theorem sync_download_error_handling (st : FsState) (written : List Nat)
    (chatId : Int) (jobId token filePath : String) (now ttlMs : Int)
    (hfresh : mapGet token st.tempFiles = none) :
    ((syncCreateTempFileFromStream st (SyncStreamOutcome.sourceErr written)
        chatId jobId token filePath now ttlMs).1 =
      Except.error "Stream error during download" ∧
     mapGet filePath ((syncCreateTempFileFromStream st
        (SyncStreamOutcome.sourceErr written) chatId jobId token filePath now
        ttlMs).2).disk = none ∧
     mapGet token ((syncCreateTempFileFromStream st
        (SyncStreamOutcome.sourceErr written) chatId jobId token filePath now
        ttlMs).2).tempFiles = none) ∧
    ((syncCreateTempFileFromStream st (SyncStreamOutcome.writeErr written)
        chatId jobId token filePath now ttlMs).1 =
      Except.error "Write stream error" ∧
     mapGet filePath ((syncCreateTempFileFromStream st
        (SyncStreamOutcome.writeErr written) chatId jobId token filePath now
        ttlMs).2).disk = none ∧
     mapGet token ((syncCreateTempFileFromStream st
        (SyncStreamOutcome.writeErr written) chatId jobId token filePath now
        ttlMs).2).tempFiles = none) ∧
    ((syncCreateTempFileFromStream st (SyncStreamOutcome.finished []) chatId
        jobId token filePath now ttlMs).1 =
      Except.error "No data received from stream" ∧
     mapGet token ((syncCreateTempFileFromStream st
        (SyncStreamOutcome.finished []) chatId jobId token filePath now
        ttlMs).2).tempFiles = none) := by
  refine ⟨⟨rfl, ?_, ?_⟩, ⟨rfl, ?_, ?_⟩, rfl, ?_⟩
  · simp only [syncCreateTempFileFromStream]
    exact mapGet_mapDelete_self _ _
  · simpa only [syncCreateTempFileFromStream] using hfresh
  · simp only [syncCreateTempFileFromStream]
    exact mapGet_mapDelete_self _ _
  · simpa only [syncCreateTempFileFromStream] using hfresh
  · simpa only [syncCreateTempFileFromStream, List.length_nil, if_pos] using hfresh

/-- Witness for C9 on the empty registry. -/
theorem sync_download_error_handling_witness :
    (mapGet "tok" (FsState.mk [] []).tempFiles = none) ∧
    (((syncCreateTempFileFromStream { tempFiles := [], disk := [] }
        (SyncStreamOutcome.sourceErr [9]) 1 "job" "tok" "f" 0 1000).1 =
      Except.error "Stream error during download" ∧
     mapGet "f" ((syncCreateTempFileFromStream { tempFiles := [], disk := [] }
        (SyncStreamOutcome.sourceErr [9]) 1 "job" "tok" "f" 0 1000).2).disk = none ∧
     mapGet "tok" ((syncCreateTempFileFromStream { tempFiles := [], disk := [] }
        (SyncStreamOutcome.sourceErr [9]) 1 "job" "tok" "f" 0 1000).2).tempFiles = none) ∧
    ((syncCreateTempFileFromStream { tempFiles := [], disk := [] }
        (SyncStreamOutcome.writeErr [9]) 1 "job" "tok" "f" 0 1000).1 =
      Except.error "Write stream error" ∧
     mapGet "f" ((syncCreateTempFileFromStream { tempFiles := [], disk := [] }
        (SyncStreamOutcome.writeErr [9]) 1 "job" "tok" "f" 0 1000).2).disk = none ∧
     mapGet "tok" ((syncCreateTempFileFromStream { tempFiles := [], disk := [] }
        (SyncStreamOutcome.writeErr [9]) 1 "job" "tok" "f" 0 1000).2).tempFiles = none) ∧
    ((syncCreateTempFileFromStream { tempFiles := [], disk := [] }
        (SyncStreamOutcome.finished []) 1 "job" "tok" "f" 0 1000).1 =
      Except.error "No data received from stream" ∧
     mapGet "tok" ((syncCreateTempFileFromStream { tempFiles := [], disk := [] }
        (SyncStreamOutcome.finished []) 1 "job" "tok" "f" 0 1000).2).tempFiles = none)) :=
  ⟨by decide,
   sync_download_error_handling { tempFiles := [], disk := [] } [9] 1 "job"
     "tok" "f" 0 1000 (by decide)⟩

/-! ## Claim C3 -/

/-- Claim C3 counterexample: a job that has left `queued` (a poll
observed remote `processing`) re-enters `queued` on the next poll
when the remote reports `queued` again; and `cancelJob` moves a
job already in the terminal `ready` state to `failed`.  Both
violate the claimed monotone transition graph. -/
theorem status_monotonic_counterexample :
    (mapGet "j" (pollStep [("j", jobQueued)] "j"
        PollResult.remoteProcessing)).map AsyncJob.status =
      some JobStatus.processing ∧
    (mapGet "j" (pollStep (pollStep [("j", jobQueued)] "j"
        PollResult.remoteProcessing) "j"
        PollResult.remoteQueued)).map AsyncJob.status =
      some JobStatus.queued ∧
    (mapGet "k" (cancelStep [("k", jobReady)] "k")).map AsyncJob.status =
      some JobStatus.failed := by
  decide

/-- Claim C3 as amended: poll-loop steps never touch a job already
in `ready` or `failed` (the loop only polls `queued`/`processing`
jobs), and an active job's poll step follows `pollJob`; but the
graph is not monotone: a `processing` job returns to `queued` when
the remote reports `queued`, and a cancel step moves any job
present in the map — including one in terminal `ready` or `failed`
— to `failed` with error `'Cancelled by user'`. -/
theorem job_state_machine (jobs : List (String × AsyncJob)) (id : String)
    (j : AsyncJob) (r : PollResult) (hget : mapGet id jobs = some j) :
    ((j.status = JobStatus.ready ∨ j.status = JobStatus.failed) →
      pollStep jobs id r = jobs) ∧
    (j.status = JobStatus.processing →
      (pollJob j PollResult.remoteQueued).status = JobStatus.queued) ∧
    (mapGet id (cancelStep jobs id) =
      some { j with status := JobStatus.failed,
                    error := some "Cancelled by user" }) ∧
    ((j.status = JobStatus.queued ∨ j.status = JobStatus.processing) →
      mapGet id (pollStep jobs id r) = some (pollJob j r)) := by
  refine ⟨?_, ?_, ?_, ?_⟩
  · intro hterm
    have hno : ¬ (j.status = JobStatus.queued ∨ j.status = JobStatus.processing) := by
      rcases hterm with ht | ht <;> simp [ht]
    simp [pollStep, hget, hno]
  · intro hproc
    simp [pollJob, hproc]
  · simp only [cancelStep, hget]
    exact mapGet_mapSet_self _ _ _
  · intro hactive
    simp only [pollStep, hget, if_pos hactive]
    exact mapGet_mapSet_self _ _ _

/-- Witness for the amended C3 on a one-job map holding
`jobQueued`. -/
theorem job_state_machine_witness :
    (mapGet "j" [("j", jobQueued)] = some jobQueued) ∧
    (((jobQueued.status = JobStatus.ready ∨ jobQueued.status = JobStatus.failed) →
      pollStep [("j", jobQueued)] "j" PollResult.remoteProcessing = [("j", jobQueued)]) ∧
    (jobQueued.status = JobStatus.processing →
      (pollJob jobQueued PollResult.remoteQueued).status = JobStatus.queued) ∧
    (mapGet "j" (cancelStep [("j", jobQueued)] "j") =
      some { jobQueued with status := JobStatus.failed,
                            error := some "Cancelled by user" }) ∧
    ((jobQueued.status = JobStatus.queued ∨ jobQueued.status = JobStatus.processing) →
      mapGet "j" (pollStep [("j", jobQueued)] "j" PollResult.remoteProcessing) =
        some (pollJob jobQueued PollResult.remoteProcessing))) :=
  ⟨by decide,
   job_state_machine [("j", jobQueued)] "j" jobQueued
     PollResult.remoteProcessing (by decide)⟩

/-! ## Claim C4 -/

/-- Claim C4 counterexample: four consecutive transport errors
followed by a successful poll do NOT reset forward progress —
`retryCount` stays at 4 — so a single later transport error
reaches the ceiling and force-fails the job with `'Too many
polling failures'`: exactly the premature failure the claim rules
out. -/
theorem retry_reset_counterexample :
    (pollJob (pollJob (pollJob (pollJob jobQueued PollResult.transportError)
        PollResult.transportError) PollResult.transportError)
        PollResult.transportError).retryCount = 4 ∧
    (pollJob (pollJob (pollJob (pollJob (pollJob jobQueued
        PollResult.transportError) PollResult.transportError)
        PollResult.transportError) PollResult.transportError)
        PollResult.remoteProcessing).retryCount = 4 ∧
    (pollJob (pollJob (pollJob (pollJob (pollJob (pollJob jobQueued
        PollResult.transportError) PollResult.transportError)
        PollResult.transportError) PollResult.transportError)
        PollResult.remoteProcessing) PollResult.transportError).status =
      JobStatus.failed ∧
    (pollJob (pollJob (pollJob (pollJob (pollJob (pollJob jobQueued
        PollResult.transportError) PollResult.transportError)
        PollResult.transportError) PollResult.transportError)
        PollResult.remoteProcessing) PollResult.transportError).error =
      some "Too many polling failures" := by
  decide

/-- Claim C4 as amended: each transport error on the status poll
increments `retryCount` and otherwise leaves the job unchanged
while below the ceiling of 5; when `retryCount` reaches 5 the job
is force-failed with `'Too many polling failures'`; but
`retryCount` is cumulative — a successful poll never resets it —
so the fifth transport error overall (not necessarily consecutive)
fails the job. -/
theorem retry_ceiling (j : AsyncJob) :
    (j.retryCount + 1 < 5 →
      pollJob j PollResult.transportError =
        { j with retryCount := j.retryCount + 1 }) ∧
    (j.retryCount + 1 ≥ 5 →
      pollJob j PollResult.transportError =
        { j with retryCount := j.retryCount + 1,
                 status := JobStatus.failed,
                 error := some "Too many polling failures" }) ∧
    ((pollJob j PollResult.remoteProcessing).retryCount = j.retryCount) ∧
    ((pollJob j PollResult.remoteQueued).retryCount = j.retryCount) := by
  refine ⟨?_, ?_, ?_, ?_⟩
  · intro hlt
    have hno : ¬ j.retryCount + 1 ≥ 5 := by omega
    simp [pollJob, hno]
  · intro hge
    simp [pollJob, hge, handleJobFailed]
  · simp [pollJob]
  · by_cases hq : j.status = JobStatus.queued
    · simp [pollJob, hq]
    · simp [pollJob, hq]

/-- Witness for the amended C4 at `jobQueued` (retryCount 0). -/
theorem retry_ceiling_witness :
    jobQueued.retryCount + 1 < 5 ∧
    pollJob jobQueued PollResult.transportError =
      { jobQueued with retryCount := jobQueued.retryCount + 1 } :=
  ⟨by decide, (retry_ceiling jobQueued).1 (by decide)⟩

/-! ## Claim C5 -/

/-- Claim C5: when the remote status arrives as `ready` with no
download reference, the job always transitions to `failed` with
the descriptive error `'No download URL provided'`, never ends in
`ready`, and is not dropped from the jobs map by the step. -/
theorem ready_without_url_fails (jobs : List (String × AsyncJob)) (id : String)
    (j : AsyncJob) (ok : Bool) (hget : mapGet id jobs = some j)
    (hactive : j.status = JobStatus.queued ∨ j.status = JobStatus.processing) :
    (pollJob j (PollResult.remoteReady none ok)).status = JobStatus.failed ∧
    (pollJob j (PollResult.remoteReady none ok)).error =
      some "No download URL provided" ∧
    (pollJob j (PollResult.remoteReady none ok)).status ≠ JobStatus.ready ∧
    mapGet id (pollStep jobs id (PollResult.remoteReady none ok)) =
      some (pollJob j (PollResult.remoteReady none ok)) := by
  refine ⟨?_, ?_, ?_, ?_⟩
  · simp [pollJob, handleJobCompleted, handleJobFailed]
  · simp [pollJob, handleJobCompleted, handleJobFailed]
  · simp [pollJob, handleJobCompleted, handleJobFailed]
  · simp only [pollStep, hget, if_pos hactive]
    exact mapGet_mapSet_self _ _ _

/-- Witness for C5 on a one-job map holding `jobQueued`. -/
theorem ready_without_url_fails_witness :
    (mapGet "j" [("j", jobQueued)] = some jobQueued ∧
     (jobQueued.status = JobStatus.queued ∨
      jobQueued.status = JobStatus.processing)) ∧
    ((pollJob jobQueued (PollResult.remoteReady none true)).status =
       JobStatus.failed ∧
     (pollJob jobQueued (PollResult.remoteReady none true)).error =
       some "No download URL provided" ∧
     (pollJob jobQueued (PollResult.remoteReady none true)).status ≠
       JobStatus.ready ∧
     mapGet "j" (pollStep [("j", jobQueued)] "j"
        (PollResult.remoteReady none true)) =
       some (pollJob jobQueued (PollResult.remoteReady none true))) :=
  ⟨⟨by decide, by decide⟩,
   ready_without_url_fails [("j", jobQueued)] "j" jobQueued true (by decide)
     (by decide)⟩

end MusicBag

